import Mathlib

/-
Verification of the JUnit test generator's request/response pipeline.

The program under study is a small desktop utility (junit_test_generator.py).
Strings are embedded as `List Char`; Python's `in`, `str.split` (through its
first two components, the only ones the program uses), and `str.strip` are
given as executable Lean functions.  The HTTP layer (the `requests` library)
and the JSON parser are external libraries, so an HTTP response is modelled
abstractly as its status code, its body text, and the outcome of parsing that
body; the program's own logic on top of them is translated verbatim.  The
tkinter widget layer is modelled as a state machine over the widget contents
and the enabled/disabled flags that the handlers set; a widget's text content
stands for the displayed text, and clicking a disabled button is a no-op.
-/

/-- The backquote character, written by code point. -/
def backquote : Char := Char.ofNat 96

/-- The single-quote character, written by code point. -/
def squote : Char := Char.ofNat 39

/-- Python whitespace test used by `str.strip` (ASCII subset; the strings this
program strips contain only these characters). -/
def isPySpace (c : Char) : Bool :=
  c == ' ' || c == '\t' || c == '\n' || c == '\r' || c == Char.ofNat 11 || c == Char.ofNat 12

/-- Python `str.strip()`: drop leading and trailing whitespace. -/
def pyStrip (s : List Char) : List Char :=
  (((s.dropWhile isPySpace).reverse.dropWhile isPySpace)).reverse

/-- Index of the first occurrence of `sep` in `s` (`none` if absent).
For the empty separator the index is 0, as in Python's `str.find`. -/
def firstOcc (sep s : List Char) : Option Nat :=
  match s with
  | [] => if sep.isEmpty then some 0 else none
  | _ :: t => if sep.isPrefixOf s then some 0 else (firstOcc sep t).map (fun n => n + 1)

/-- Python's `sep in s` membership test. -/
def containsSub (sep s : List Char) : Bool :=
  (firstOcc sep s).isSome

/-- Everything after the first occurrence of `sep` in `s` (`[]` if absent). -/
def pyTail (sep s : List Char) : List Char :=
  match firstOcc sep s with
  | some i => s.drop (i + sep.length)
  | none => []

/-- `s.split(sep)[0]` in Python: the segment before the first occurrence of
`sep` (the whole string when `sep` is absent). -/
def pySplitIdx0 (sep s : List Char) : List Char :=
  match firstOcc sep s with
  | some i => s.take i
  | none => s

/-- `s.split(sep)[1]` in Python (meaningful when `sep` occurs in `s`): the
segment between the first and second non-overlapping occurrences of `sep`,
or everything after the first occurrence when there is no second one. -/
def pySplitIdx1 (sep s : List Char) : List Char :=
  pySplitIdx0 sep (pyTail sep s)

/-- The opening marker `"```java"` (junit_test_generator.py line 130). -/
def javaMarker : List Char := "```java".toList

/-- The plain fence delimiter `"```"` (junit_test_generator.py line 132). -/
def fenceMarker : List Char := "```".toList

/-- The markdown-fence extraction applied to the model's reply, lines 129-136
of junit_test_generator.py, including the final `.strip()` on line 136:

    if "```java" in test_code:
        test_code = test_code.split("```java")[1]
        if "```" in test_code:
            test_code = test_code.split("```")[0]
    ... test_code.strip()
-/
def extractCode (raw : List Char) : List Char :=
  pyStrip
    (if containsSub javaMarker raw then
      let t := pySplitIdx1 javaMarker raw
      if containsSub fenceMarker t then pySplitIdx0 fenceMarker t else t
    else raw)

/-- The extraction as the specification words it (ResponseExtractor, spec
section 4.3): everything between the first occurrence of the opening marker
and the first subsequent closing fence delimiter, trimmed; the raw text
trimmed when there is no opening marker; everything after the opening marker
trimmed when no closing delimiter follows.  Written from the spec's words,
to be compared with `extractCode`. -/
def extractSpec (raw : List Char) : List Char :=
  if containsSub javaMarker raw then
    let rest := pyTail javaMarker raw
    if containsSub fenceMarker rest then pyStrip (pySplitIdx0 fenceMarker rest) else pyStrip rest
  else pyStrip raw

/-- Fixed text of the prompt template before the interpolated source
(junit_test_generator.py lines 165-209, the f-string up to `{java_code}`). -/
def promptHead : List Char :=
  ("\n[Context]\nI\x27m adding JUnit tests to an existing test class. I need comprehensive test methods for the following Java class.\n\n[Reference Documentation]\nFollow JUnit 5 best practices including:\n- @Test, @BeforeEach, @AfterEach annotations\n- Assertions from org.junit.jupiter.api.Assertions\n- Mockito for dependency mocking\n- Parameterized tests for multiple input combinations\n- Exception testing with assertThrows()\n\n[Specific Task]\nAnalyze the Java class below and generate exhaustive JUnit 5 test methods (not the entire class) that achieve maximum code coverage.\n\n[Technical Requirements]\n1. Generate ONLY the test methods (no class declaration, imports, or package statements)\n2. Include test methods for ALL public methods\n3. Test ALL possible execution paths through each method\n4. Generate tests for the following scenarios for each method:\n   - Normal/expected inputs with correct results\n   - Edge cases (empty collections, null inputs, boundary values)\n   - Invalid inputs that should trigger exceptions\n   - All conditional branches (if/else, switch statements)\n   - For methods with loops, test: empty iterations, single iteration, multiple iterations\n5. For methods with dependencies:\n   - Assume mocks are already properly set up in the test class\n   - Set up mock behavior for different test scenarios\n   - Verify mock interactions where appropriate\n6. For methods with complex inputs:\n   - Create parameterized tests (@ParameterizedTest) with multiple combinations\n   - Test boundary conditions for numeric inputs\n   - Test empty, single-element, and multi-element collections\n7. Include private helper methods for test setup when needed\n\n[Desired Output Format]\n- Organize tests by method, with clear method naming: test[MethodName][Scenario]\n- Include descriptive Javadoc comments for each test method explaining what is being tested\n- Group related tests using nested test classes (@Nested) when appropriate\n- Include appropriate assertions for each test case\n- Assume all necessary imports are already present\n- Format code according to standard Java conventions\n\n[Java Class to Test]\n```java\n").toList

/-- Fixed text of the prompt template after the interpolated source
(junit_test_generator.py lines 210-214). -/
def promptTail : List Char :=
  ("\n```\n\nPlease generate ONLY the test methods following this structure. Do not include class declaration, imports, or package statements. Assume the test class and all necessary imports already exist.\n").toList

/-- `create_prompt` (junit_test_generator.py lines 164-215): the f-string
interpolates the source text verbatim between the two fixed template parts. -/
def create_prompt (java_code : List Char) : List Char :=
  promptHead ++ java_code ++ promptTail

/-- The JSON request body built on lines 109-117 of junit_test_generator.py.
`temperature` is kept as the literal written in the source (floating point is
not modelled; no claim depends on its numeric value). -/
structure Payload where
  model : List Char
  systemMessage : List Char
  userMessage : List Char
  temperature : List Char
  maxTokens : Nat
deriving DecidableEq

/-- Building the request payload (junit_test_generator.py lines 109-117). -/
def buildPayload (java_code : List Char) : Payload :=
  { model := ("gpt-4o").toList
  , systemMessage := ("You are an expert Java developer specializing in JUnit test creation.").toList
  , userMessage := create_prompt java_code
  , temperature := ("0.3").toList
  , maxTokens := 4000 }

/-- A parsed JSON value, as returned by `response.json()`.  Numbers are kept
abstract as integers: no claim inspects a numeric JSON value. -/
inductive JValue where
  | jNull
  | jBool (b : Bool)
  | jNum (n : Int)
  | jStr (s : List Char)
  | jArr (elems : List JValue)
  | jObj (fields : List (List Char × JValue))

/-- Python `str(KeyError(k))`, which is the repr `'k'` of the missing key. -/
def keyErrMsg (k : List Char) : List Char :=
  squote :: (k ++ [squote])

/-- Representative message of the `TypeError` Python raises when subscripting
a non-container (the exact Python text also names the value's type, which the
program never relies on). -/
def typeErrMsg : List Char := ("object is not subscriptable").toList

/-- Python `d[k]` on a parsed JSON value: a `KeyError` escapes when the key is
missing, a `TypeError` when the value is not an object. -/
def jGetKey (v : JValue) (k : List Char) : Except (List Char) JValue :=
  match v with
  | JValue.jObj fields =>
    match fields.find? (fun f => f.fst == k) with
    | some f => Except.ok f.snd
    | none => Except.error (keyErrMsg k)
  | _ => Except.error typeErrMsg

/-- Python `a[i]` on a parsed JSON value: an `IndexError` escapes when the
array is too short, a `TypeError` when the value is not an array. -/
def jGetIdx (v : JValue) (i : Nat) : Except (List Char) JValue :=
  match v with
  | JValue.jArr es =>
    match es.get? i with
    | some x => Except.ok x
    | none => Except.error (("list index out of range").toList)
  | _ => Except.error typeErrMsg

/-- The content must be a string for the subsequent `"```java" in test_code`
and `.strip()` to succeed; on any other value a `TypeError` escapes. -/
def jAsStr (v : JValue) : Except (List Char) (List Char) :=
  match v with
  | JValue.jStr s => Except.ok s
  | _ => Except.error typeErrMsg

/-- `response_json['choices'][0]['message']['content']` (line 127): each step
can raise, and every raised exception is caught by the handler's `except`. -/
def getContent (j : JValue) : Except (List Char) (List Char) := do
  let cs ← jGetKey j (("choices").toList)
  let c0 ← jGetIdx cs 0
  let msg ← jGetKey c0 (("message").toList)
  let content ← jGetKey msg (("content").toList)
  jAsStr content

/-- An HTTP response as the program observes it: the status code, the raw body
text, and the outcome of `response.json()` (the JSON parser is library code;
a malformed body makes `json()` raise, carried here as `Except.error` with the
exception's message). -/
structure HttpResponse where
  status : Nat
  text : List Char
  jsonResult : Except (List Char) JValue

/-- The one callback `call_openai_api` schedules on the Tk main loop:
either `update_ui_with_result(test_code)` or `show_error(message)`. -/
inductive UiAction where
  | updateResult (testCode : List Char)
  | showError (message : List Char)
deriving DecidableEq

/-- Decimal rendering of a number, as Python's f-string interpolation does. -/
def natChars (n : Nat) : List Char := (toString n).toList

/-- The message built on line 138: `f"API Error: {status_code}\n{text}"`. -/
def apiErrorMessage (status : Nat) (body : List Char) : List Char :=
  ("API Error: ").toList ++ natChars status ++ ("\n").toList ++ body

/-- The message built on line 142: `f"Error: {str(e)}"`. -/
def excMessage (e : List Char) : List Char :=
  ("Error: ").toList ++ e

/-- The worker body `call_openai_api` (junit_test_generator.py lines 100-142),
from the completed POST onward.  Its argument is the outcome of
`requests.post`: `Except.error e` when the request itself raises (transport /
connection failure, message `str(e)`), `Except.ok r` when a response arrived.
Every exception raised inside the `try` block - the transport failure, a
raising `response.json()`, and each failing subscript of the parsed value -
is caught by `except Exception` and turned into the `show_error` callback;
a non-200 status takes the explicit `else` branch of line 137. -/
def call_openai_api (resp : Except (List Char) HttpResponse) : UiAction :=
  match resp with
  | Except.error e => UiAction.showError (excMessage e)
  | Except.ok r =>
    if r.status = 200 then
      match r.jsonResult with
      | Except.error e => UiAction.showError (excMessage e)
      | Except.ok j =>
        match getContent j with
        | Except.error e => UiAction.showError (excMessage e)
        | Except.ok content => UiAction.updateResult (extractCode content)
    else
      UiAction.showError (apiErrorMessage r.status r.text)

/-- The observable state of the window: the output widget's text, the status
label, the two buttons' enabled flags, whether a worker thread is in flight
(with its request payload), the clipboard hand-off, and two counters (spawned
workers, delivered results) that record the dispatch history. -/
structure AppState where
  outputText : List Char
  statusText : List Char
  generateEnabled : Bool
  copyEnabled : Bool
  running : Bool
  inFlightPayload : Option Payload
  clipboard : Option (List Char)
  spawnCount : Nat
  delivered : Nat
deriving DecidableEq

/-- The events that drive the window.  `clickGenerate fileOk code` is a click
on the generate button for a file whose validation outcome is `fileOk` and
whose content is `code` (path/extension/read checks happen before any state
change; a failed check only shows a dialog).  `workerDone resp` is the
scheduled callback of the worker whose POST produced `resp`.  `clickCopy` is
a click on the copy button.  `copyStatusTimer` is the 2-second timer set by
`copy_to_clipboard` resetting the status label. -/
inductive Event where
  | clickGenerate (fileOk : Bool) (code : List Char)
  | workerDone (resp : Except (List Char) HttpResponse)
  | clickCopy
  | copyStatusTimer

/-- One event of the application (junit_test_generator.py lines 69-162).

`clickGenerate`: a disabled button ignores the click; `generate_tests` then
returns early when validation failed or the file content is falsy (the empty
string included, line 85), and otherwise clears the output, disables both
buttons, sets the status and starts the worker thread (lines 88-98).

`workerDone`: a callback only exists while a worker is in flight; it runs
`update_ui_with_result` (lines 144-149) or `show_error` (lines 151-156),
both of which replace the output text and re-enable the generate button,
while only success enables the copy button.

`clickCopy`: `copy_to_clipboard` (lines 158-162) passes the output widget's
text to `pyperclip.copy` and sets the status label. -/
def stepE (s : AppState) (e : Event) : AppState :=
  match e with
  | Event.clickGenerate fileOk code =>
    if s.generateEnabled then
      if fileOk && !code.isEmpty then
        { s with outputText := []
               , generateEnabled := false
               , copyEnabled := false
               , statusText := ("Generating tests...").toList
               , running := true
               , inFlightPayload := some (buildPayload code)
               , spawnCount := s.spawnCount + 1 }
      else s
    else s
  | Event.workerDone resp =>
    if s.running then
      match call_openai_api resp with
      | UiAction.updateResult t =>
        { s with outputText := t
               , generateEnabled := true
               , copyEnabled := true
               , statusText := ("Tests generated successfully!").toList
               , running := false
               , inFlightPayload := none
               , delivered := s.delivered + 1 }
      | UiAction.showError m =>
        { s with outputText := m
               , generateEnabled := true
               , copyEnabled := false
               , statusText := ("Error occurred").toList
               , running := false
               , inFlightPayload := none
               , delivered := s.delivered + 1 }
    else s
  | Event.clickCopy =>
    if s.copyEnabled then
      { s with clipboard := some s.outputText
             , statusText := ("Copied to clipboard!").toList }
    else s
  | Event.copyStatusTimer =>
    { s with statusText := ("Ready").toList }

/-- The state after `setup_ui` (lines 28-59): status "Ready", generate button
enabled, copy button disabled, empty output, nothing in flight. -/
def initState : AppState :=
  { outputText := []
  , statusText := ("Ready").toList
  , generateEnabled := true
  , copyEnabled := false
  , running := false
  , inFlightPayload := none
  , clipboard := none
  , spawnCount := 0
  , delivered := 0 }

/-- States the window can actually be in. -/
inductive Reachable : AppState → Prop where
  | init : Reachable initState
  | step (s : AppState) (e : Event) : Reachable s → Reachable (stepE s e)

/-- A concrete running state used by the closed instances below. -/
def demoRunState : AppState :=
  stepE initState (Event.clickGenerate true (("class Foo").toList))

/-- A concrete 200 response carrying a well-formed body (the end-to-end
example of spec section 8). -/
def demoOkResp : Except (List Char) HttpResponse :=
  Except.ok
    { status := 200
    , text := ("ok").toList
    , jsonResult := Except.ok (JValue.jObj
        [ (("choices").toList, JValue.jArr
            [ JValue.jObj
                [ (("message").toList, JValue.jObj
                    [ (("content").toList,
                       JValue.jStr (("Here:\n```java\n@Test void t()\x7b\x7d\n```").toList)) ]) ] ]) ]) }

/-- A concrete 500 response. -/
def demoErrResp : Except (List Char) HttpResponse :=
  Except.ok { status := 500, text := ("server error").toList, jsonResult := Except.error [] }

/-- A concrete transport failure. -/
def demoNetResp : Except (List Char) HttpResponse :=
  Except.error (("Connection refused").toList)

/-- A concrete 200 response whose body is not JSON: `response.json()` raises. -/
def demoMalformedResp : HttpResponse :=
  { status := 200
  , text := ("not json").toList
  , jsonResult := Except.error (("Expecting value: line 1 column 1 (char 0)").toList) }

/-- A concrete 200 response whose body parses but has zero choices. -/
def demoZeroChoicesResp : HttpResponse :=
  { status := 200
  , text := ("\x7b\x22choices\x22: []\x7d").toList
  , jsonResult := Except.ok (JValue.jObj [ (("choices").toList, JValue.jArr []) ]) }

/-- The 401 response of the spec's error-mapping scenario. -/
def c4Resp : HttpResponse :=
  { status := 401
  , text := ("\x7b\x22error\x22:\x22invalid key\x22\x7d").toList
  , jsonResult := Except.error [] }

theorem isPrefixOf_iff (p s : List Char) : p.isPrefixOf s = true ↔ ∃ r, s = p ++ r := by
  induction p generalizing s with
  | nil => simp [List.isPrefixOf]
  | cons a as ih =>
    cases s with
    | nil => simp [List.isPrefixOf]
    | cons b bs =>
      simp only [List.isPrefixOf, Bool.and_eq_true, beq_iff_eq, ih, List.cons_append,
        List.cons.injEq]
      constructor
      · rintro ⟨rfl, r, rfl⟩; exact ⟨r, rfl, rfl⟩
      · rintro ⟨r, rfl, rfl⟩; exact ⟨rfl, r, rfl⟩

theorem isPrefixOf_append_self (p b : List Char) : p.isPrefixOf (p ++ b) = true :=
  (isPrefixOf_iff p (p ++ b)).mpr ⟨b, rfl⟩

theorem containsSub_iff (sep s : List Char) : containsSub sep s = true ↔ ∃ a b, s = a ++ sep ++ b := by
  induction s with
  | nil =>
    by_cases hsep : sep.isEmpty
    · rw [List.isEmpty_iff] at hsep
      subst hsep
      simp [containsSub, firstOcc]
    · simp only [containsSub, firstOcc, if_neg hsep, Option.isSome_none]
      rw [List.isEmpty_iff] at hsep
      constructor
      · intro h; cases h
      · rintro ⟨a, b, h⟩
        exact absurd ((List.append_eq_nil.mp (List.append_eq_nil.mp h.symm).1).2) hsep
  | cons c t ih =>
    by_cases hp : sep.isPrefixOf (c :: t) = true
    · simp only [containsSub, firstOcc, if_pos hp, Option.isSome_some, true_iff]
      obtain ⟨r, hr⟩ := (isPrefixOf_iff _ _).mp hp
      exact ⟨[], r, by simpa using hr⟩
    · simp only [containsSub, firstOcc, if_neg hp]
      have hmap : ((firstOcc sep t).map (fun n => n + 1)).isSome = (firstOcc sep t).isSome := by
        cases firstOcc sep t <;> rfl
      rw [hmap]
      rw [show (firstOcc sep t).isSome = containsSub sep t from rfl, ih]
      constructor
      · rintro ⟨a, b, rfl⟩; exact ⟨c :: a, b, rfl⟩
      · rintro ⟨a, b, h⟩
        cases a with
        | nil =>
          exact absurd ((isPrefixOf_iff _ _).mpr ⟨b, by simpa using h⟩) hp
        | cons x a' =>
          injection h with h1 h2
          exact ⟨a', b, h2⟩

theorem containsSub_false_iff (sep s : List Char) : containsSub sep s = false ↔ firstOcc sep s = none := by
  unfold containsSub
  cases firstOcc sep s <;> simp

theorem firstOcc_self_append (sep b : List Char) (h : sep ≠ []) :
    firstOcc sep (sep ++ b) = some 0 := by
  cases sep with
  | nil => exact absurd rfl h
  | cons x xs =>
    have hpre : (x :: xs).isPrefixOf (x :: (xs ++ b)) = true :=
      isPrefixOf_append_self (x :: xs) b
    show firstOcc (x :: xs) (x :: (xs ++ b)) = some 0
    rw [firstOcc, if_pos hpre]

theorem firstOcc_append_clean (sep a s : List Char) (ch : Char)
    (hh : sep.head? = some ch) (ha : ∀ c ∈ a, c ≠ ch) :
    firstOcc sep (a ++ s) = (firstOcc sep s).map (fun n => n + a.length) := by
  induction a with
  | nil =>
    rw [List.nil_append]
    cases hx : firstOcc sep s <;> simp [hx]
  | cons c a' ih =>
    have hc : c ≠ ch := ha c (by simp)
    have hnp : ¬ sep.isPrefixOf (c :: (a' ++ s)) = true := by
      intro hpre
      obtain ⟨r, hr⟩ := (isPrefixOf_iff _ _).mp hpre
      cases sep with
      | nil => simp at hh
      | cons y ys =>
        injection hh with hy
        injection hr with h1 _
        exact hc (h1.trans hy)
    rw [List.cons_append, firstOcc, if_neg hnp, ih (fun c hc => ha c (by simp [hc]))]
    cases firstOcc sep s <;> simp [Nat.add_assoc, Nat.add_comm 1 a'.length]

theorem pyStrip_decomp (s : List Char) : ∃ a b, s = a ++ pyStrip s ++ b := by
  refine ⟨s.takeWhile isPySpace,
    ((s.dropWhile isPySpace).reverse.takeWhile isPySpace).reverse, ?_⟩
  unfold pyStrip
  conv_lhs => rw [← List.takeWhile_append_dropWhile isPySpace s]
  rw [List.append_assoc]
  congr 1
  conv_lhs => rw [← List.reverse_reverse (s.dropWhile isPySpace),
    ← List.takeWhile_append_dropWhile isPySpace (s.dropWhile isPySpace).reverse]
  rw [List.reverse_append]

theorem containsSub_pyStrip (sep s : List Char) (h : containsSub sep s = false) :
    containsSub sep (pyStrip s) = false := by
  by_contra hcontra
  have htrue : containsSub sep (pyStrip s) = true := by
    cases hx : containsSub sep (pyStrip s)
    · exact absurd hx hcontra
    · rfl
  obtain ⟨x, y, hxy⟩ := (containsSub_iff sep (pyStrip s)).mp htrue
  obtain ⟨a, b, hab⟩ := pyStrip_decomp s
  have : containsSub sep s = true := by
    refine (containsSub_iff sep s).mpr ⟨a ++ x, y ++ b, ?_⟩
    rw [hab, hxy]
    simp [List.append_assoc]
  rw [this] at h
  cases h

theorem isPrefixOf_of_take (p u : List Char) (n : Nat)
    (h : p.isPrefixOf (u.take n) = true) : p.isPrefixOf u = true := by
  obtain ⟨r, hr⟩ := (isPrefixOf_iff _ _).mp h
  refine (isPrefixOf_iff _ _).mpr ⟨r ++ u.drop n, ?_⟩
  conv_lhs => rw [← List.take_append_drop n u]
  rw [hr, List.append_assoc]

theorem firstOcc_take_not (sep s : List Char) (i : Nat) (hsep : sep ≠ [])
    (h : firstOcc sep s = some i) : containsSub sep (s.take i) = false := by
  induction s generalizing i with
  | nil =>
    rw [firstOcc, if_neg (by simpa [List.isEmpty_iff] using hsep)] at h
    cases h
  | cons c t ih =>
    by_cases hp : sep.isPrefixOf (c :: t) = true
    · rw [firstOcc, if_pos hp] at h
      injection h with h0
      subst h0
      simp only [List.take_zero]
      simp [containsSub, firstOcc, List.isEmpty_iff, hsep]
    · rw [firstOcc, if_neg hp] at h
      cases hft : firstOcc sep t with
      | none => rw [hft] at h; cases h
      | some j =>
        rw [hft] at h
        injection h with h0
        subst h0
        simp only [List.take_succ_cons]
        have hnp2 : ¬ sep.isPrefixOf (c :: t.take j) = true := by
          intro hpre
          exact hp (isPrefixOf_of_take sep (c :: t) (j + 1) (by simpa using hpre))
        rw [containsSub, firstOcc, if_neg hnp2]
        have := ih j hft
        rw [containsSub_false_iff] at this
        rw [this]
        rfl

theorem javaMarker_ne_nil : javaMarker ≠ [] := by decide

theorem fenceMarker_ne_nil : fenceMarker ≠ [] := by decide

theorem javaMarker_head : javaMarker.head? = some backquote := by decide

theorem fenceMarker_head : fenceMarker.head? = some backquote := by decide

theorem javaMarker_eq :
    javaMarker = backquote :: backquote :: backquote :: 'j' :: 'a' :: 'v' :: 'a' :: [] := by decide

theorem fenceMarker_eq : fenceMarker = backquote :: backquote :: backquote :: [] := by decide

theorem bool_eq_false {b : Bool} (h : ¬ b = true) : b = false := by
  cases b
  · rfl
  · exact absurd rfl h

theorem firstOcc_javaMarker_fence (post : List Char)
    (hp1 : post.head? ≠ some backquote)
    (hp2 : (("java").toList).isPrefixOf post = false) :
    firstOcc javaMarker (fenceMarker ++ post)
      = (firstOcc javaMarker post).map (fun n => n + 3) := by
  have hpostbq : ∀ (xs : List Char), ((backquote :: xs).isPrefixOf post) = false := by
    intro xs
    cases post with
    | nil => rfl
    | cons c p' =>
      have hc : (backquote == c) = false := by
        apply beq_eq_false_iff_ne.mpr
        intro h
        apply hp1
        simp [h]
      simp [List.isPrefixOf, hc]
  have hjava : (("java").toList) = 'j' :: 'a' :: 'v' :: 'a' :: [] := by decide
  have cond1 : ¬ javaMarker.isPrefixOf (backquote :: backquote :: backquote :: post) = true := by
    rw [javaMarker_eq]
    simp only [List.isPrefixOf, beq_self_eq_true, Bool.true_and]
    rw [hjava] at hp2
    simp [hp2]
  have cond2 : ¬ javaMarker.isPrefixOf (backquote :: backquote :: post) = true := by
    rw [javaMarker_eq]
    simp only [List.isPrefixOf, beq_self_eq_true, Bool.true_and]
    simp [hpostbq]
  have cond3 : ¬ javaMarker.isPrefixOf (backquote :: post) = true := by
    rw [javaMarker_eq]
    simp only [List.isPrefixOf, beq_self_eq_true, Bool.true_and]
    simp [hpostbq]
  have e1 : fenceMarker ++ post = backquote :: backquote :: backquote :: post := by
    rw [fenceMarker_eq]
    rfl
  rw [e1, firstOcc, if_neg cond1, firstOcc, if_neg cond2, firstOcc, if_neg cond3]
  cases hx : firstOcc javaMarker post <;> rfl

theorem extract_first_pair (pre mid post : List Char)
    (hpre : ∀ c ∈ pre, c ≠ backquote)
    (hmid : ∀ c ∈ mid, c ≠ backquote)
    (hp1 : post.head? ≠ some backquote)
    (hp2 : (("java").toList).isPrefixOf post = false) :
    extractCode (pre ++ javaMarker ++ mid ++ fenceMarker ++ post) = pyStrip mid := by
  have hassoc : pre ++ javaMarker ++ mid ++ fenceMarker ++ post
      = pre ++ (javaMarker ++ (mid ++ (fenceMarker ++ post))) := by
    simp [List.append_assoc]
  rw [hassoc]
  have h1 : firstOcc javaMarker (pre ++ (javaMarker ++ (mid ++ (fenceMarker ++ post))))
      = some pre.length := by
    rw [firstOcc_append_clean javaMarker pre _ backquote javaMarker_head hpre,
        firstOcc_self_append javaMarker _ javaMarker_ne_nil]
    simp
  have hcontains : containsSub javaMarker (pre ++ (javaMarker ++ (mid ++ (fenceMarker ++ post))))
      = true := by
    rw [containsSub, h1]
    rfl
  have htail : pyTail javaMarker (pre ++ (javaMarker ++ (mid ++ (fenceMarker ++ post))))
      = mid ++ (fenceMarker ++ post) := by
    simp only [pyTail, h1]
    rw [show pre ++ (javaMarker ++ (mid ++ (fenceMarker ++ post)))
          = (pre ++ javaMarker) ++ (mid ++ (fenceMarker ++ post)) from
        (List.append_assoc _ _ _).symm,
      show pre.length + javaMarker.length = (pre ++ javaMarker).length from
        (List.length_append _ _).symm,
      List.drop_left]
  have h2 : firstOcc javaMarker (mid ++ (fenceMarker ++ post))
      = (firstOcc javaMarker post).map (fun n => n + 3 + mid.length) := by
    rw [firstOcc_append_clean javaMarker mid _ backquote javaMarker_head hmid,
        firstOcc_javaMarker_fence post hp1 hp2]
    cases firstOcc javaMarker post <;> rfl
  have hfence : ∀ w, firstOcc fenceMarker (mid ++ (fenceMarker ++ w)) = some mid.length := by
    intro w
    rw [firstOcc_append_clean fenceMarker mid _ backquote fenceMarker_head hmid,
        firstOcc_self_append fenceMarker _ fenceMarker_ne_nil]
    simp
  have hsplit0 : ∀ w, pySplitIdx0 fenceMarker (mid ++ (fenceMarker ++ w)) = mid := by
    intro w
    simp only [pySplitIdx0, hfence w]
    exact List.take_left mid _
  have hcf : ∀ w, containsSub fenceMarker (mid ++ (fenceMarker ++ w)) = true := by
    intro w
    rw [containsSub, hfence w]
    rfl
  simp only [extractCode, if_pos hcontains]
  cases hx : firstOcc javaMarker post with
  | none =>
    have ht : pySplitIdx1 javaMarker (pre ++ (javaMarker ++ (mid ++ (fenceMarker ++ post))))
        = mid ++ (fenceMarker ++ post) := by
      simp only [pySplitIdx1, htail, pySplitIdx0]
      rw [h2, hx]
      rfl
    rw [ht, if_pos (hcf post), hsplit0 post]
  | some k =>
    have ht : pySplitIdx1 javaMarker (pre ++ (javaMarker ++ (mid ++ (fenceMarker ++ post))))
        = mid ++ (fenceMarker ++ post.take k) := by
      simp only [pySplitIdx1, htail, pySplitIdx0]
      rw [h2, hx]
      show (mid ++ (fenceMarker ++ post)).take (k + 3 + mid.length)
          = mid ++ (fenceMarker ++ post.take k)
      rw [show k + 3 + mid.length = mid.length + (3 + k) from by omega, List.take_append]
      congr 1
      rw [show (3 : Nat) + k = fenceMarker.length + k from rfl, List.take_append]
    rw [ht, if_pos (hcf (post.take k)), hsplit0 (post.take k)]

theorem extract_no_fence (raw : List Char) (h : containsSub javaMarker raw = true) :
    containsSub fenceMarker (extractCode raw) = false := by
  simp only [extractCode, if_pos h]
  by_cases hf : containsSub fenceMarker (pySplitIdx1 javaMarker raw) = true
  · rw [if_pos hf]
    apply containsSub_pyStrip
    cases hocc : firstOcc fenceMarker (pySplitIdx1 javaMarker raw) with
    | none =>
      rw [containsSub, hocc] at hf
      cases hf
    | some i =>
      have hnot := firstOcc_take_not fenceMarker (pySplitIdx1 javaMarker raw) i
        fenceMarker_ne_nil hocc
      simp only [pySplitIdx0, hocc]
      exact hnot
  · rw [if_neg hf]
    exact containsSub_pyStrip _ _ (bool_eq_false hf)

theorem extract_eq_spec_of_single (raw : List Char)
    (h : containsSub javaMarker (pyTail javaMarker raw) = false) :
    extractCode raw = extractSpec raw := by
  by_cases hm : containsSub javaMarker raw = true
  · have hT : pySplitIdx1 javaMarker raw = pyTail javaMarker raw := by
      simp only [pySplitIdx1, pySplitIdx0, (containsSub_false_iff _ _).mp h]
    simp only [extractCode, extractSpec, if_pos hm, hT]
    by_cases hf : containsSub fenceMarker (pyTail javaMarker raw) = true
    · rw [if_pos hf, if_pos hf]
    · rw [if_neg hf, if_neg hf]
  · simp only [extractCode, extractSpec, if_neg hm]

theorem call_openai_api_total (resp : Except (List Char) HttpResponse) :
    (∃ t, call_openai_api resp = UiAction.updateResult t)
      ∨ (∃ m, call_openai_api resp = UiAction.showError m) := by
  cases hc : call_openai_api resp with
  | updateResult t => exact Or.inl ⟨t, rfl⟩
  | showError m => exact Or.inr ⟨m, rfl⟩

theorem reachable_running_iff (s : AppState) (h : Reachable s) :
    s.running = !s.generateEnabled := by
  induction h with
  | init => rfl
  | step s e hreach ih =>
    cases e with
    | clickGenerate fileOk code =>
      by_cases hg : s.generateEnabled = true
      · by_cases hv : (fileOk && !code.isEmpty) = true
        · simp [stepE, hg, hv]
        · simp [stepE, hg, hv, ih]
      · simp [stepE, hg, ih]
    | workerDone resp =>
      by_cases hr : s.running = true
      · cases hc : call_openai_api resp <;> simp [stepE, hr, hc]
      · have hnoop : stepE s (Event.workerDone resp) = s := by
          simp [stepE, bool_eq_false hr]
        rw [hnoop]
        exact ih
    | clickCopy =>
      by_cases hc : s.copyEnabled = true <;> simp [stepE, hc, ih]
    | copyStatusTimer => simp [stepE, ih]

/-- Claim C1, as stated, is false: on this input the opening marker recurs one
character after a backquote, Python split truncates at the second occurrence of
the opening marker, and the extraction keeps a stray backquote where the
specified scan (first opening marker to first subsequent closing delimiter)
returns the empty string. -/
theorem C1_counterexample :
    extractCode (("```java````javaX```").toList) = [backquote]
    ∧ extractSpec (("```java````javaX```").toList) = []
    ∧ extractCode (("```java````javaX```").toList)
        ≠ extractSpec (("```java````javaX```").toList) := by
  refine ⟨by decide, by decide, by decide⟩

/-- Claim C1 (amended): the three-case definition holds for every raw string in
which the text after the first opening marker contains no further occurrence of
the opening marker.  Case one: opening marker present and a closing delimiter
follows it, the extraction is the text between them, trimmed.  Case two: no
opening marker, the raw text trimmed.  Case three: opening marker present, no
closing delimiter after it, everything after the marker trimmed. -/
theorem C1_extract_three_cases (raw : List Char)
    (h : containsSub javaMarker (pyTail javaMarker raw) = false) :
    (containsSub javaMarker raw = true →
       (containsSub fenceMarker (pyTail javaMarker raw) = true →
          extractCode raw = pyStrip (pySplitIdx0 fenceMarker (pyTail javaMarker raw)))
       ∧ (containsSub fenceMarker (pyTail javaMarker raw) = false →
          extractCode raw = pyStrip (pyTail javaMarker raw)))
    ∧ (containsSub javaMarker raw = false → extractCode raw = pyStrip raw) := by
  have he := extract_eq_spec_of_single raw h
  constructor
  · intro hm
    constructor
    · intro hf
      rw [he]
      simp [extractSpec, hm, hf]
    · intro hf
      rw [he]
      simp [extractSpec, hm, hf]
  · intro hm
    rw [he]
    simp [extractSpec, hm]

/-- Closed instance of `C1_extract_three_cases` on a concrete reply. -/
theorem C1_witness :
    containsSub javaMarker (pyTail javaMarker (("hello ```java\nCODE\n``` bye").toList)) = false
    ∧ extractCode (("hello ```java\nCODE\n``` bye").toList) = (("CODE").toList) := by
  constructor
  · decide
  · have h := C1_extract_three_cases (("hello ```java\nCODE\n``` bye").toList) (by decide)
    rw [(h.1 (by decide)).1 (by decide)]
    decide

/-- Claim C2, as stated, is false in its second half: the later fenced block is
not "embedded in the extracted result"; it is dropped entirely (the result here
is exactly "A" and contains neither the second block nor even its payload). -/
theorem C2_counterexample :
    extractCode (("```java\nA\n```\n```java\nB\n```").toList) = (("A").toList)
    ∧ containsSub (("```java\nB\n```").toList)
        (extractCode (("```java\nA\n```\n```java\nB\n```").toList)) = false
    ∧ containsSub (("B").toList)
        (extractCode (("```java\nA\n```\n```java\nB\n```").toList)) = false := by
  refine ⟨by decide, by decide, by decide⟩

/-- Claim C2 (amended): only the first open/close pair is honored - the result
is the trimmed text strictly between the first opening marker and the first
subsequent closing delimiter, whatever follows that delimiter (in particular
any additional fenced blocks) - and nothing fenced can remain embedded in the
result, which never contains a fence delimiter when an opening marker was
present. -/
theorem C2_first_pair_only :
    (∀ pre mid post : List Char,
       (∀ c ∈ pre, c ≠ backquote) → (∀ c ∈ mid, c ≠ backquote) →
       post.head? ≠ some backquote → ((("java").toList).isPrefixOf post) = false →
       extractCode (pre ++ javaMarker ++ mid ++ fenceMarker ++ post) = pyStrip mid)
    ∧ (∀ raw, containsSub javaMarker raw = true →
       containsSub fenceMarker (extractCode raw) = false) :=
  ⟨extract_first_pair, extract_no_fence⟩

/-- Closed instance of `C2_first_pair_only`: the trailing second fenced block is
dropped and no fence delimiter survives into the result. -/
theorem C2_witness :
    extractCode ((("intro ").toList ++ javaMarker ++ (("\nCODE\n").toList) ++ fenceMarker
        ++ (("\n```java\nB\n```").toList))) = (("CODE").toList)
    ∧ containsSub fenceMarker
        (extractCode (("```java\nA\n```\n```java\nB\n```").toList)) = false := by
  constructor
  · rw [C2_first_pair_only.1 (("intro ").toList) (("\nCODE\n").toList)
      (("\n```java\nB\n```").toList) (by decide) (by decide) (by decide) (by decide)]
    decide
  · exact C2_first_pair_only.2 (("```java\nA\n```\n```java\nB\n```").toList) (by decide)

/-- Claim C3: from any running state, the worker's completion callback - for
every possible outcome - is exactly one of the two UI deliveries, returns the
dispatcher to idle (running = false, generate re-enabled), bumps the delivered
counter exactly once (a second completion without a new start is a no-op), and
a new start is then accepted. -/
theorem C3_dispatcher_returns_idle (s : AppState) (resp : Except (List Char) HttpResponse)
    (h : s.running = true) :
    ((∃ t, call_openai_api resp = UiAction.updateResult t)
       ∨ (∃ m, call_openai_api resp = UiAction.showError m))
    ∧ (stepE s (Event.workerDone resp)).running = false
    ∧ (stepE s (Event.workerDone resp)).generateEnabled = true
    ∧ (stepE s (Event.workerDone resp)).delivered = s.delivered + 1
    ∧ (∀ resp2, stepE (stepE s (Event.workerDone resp)) (Event.workerDone resp2)
         = stepE s (Event.workerDone resp))
    ∧ (∀ code, code.isEmpty = false →
         (stepE (stepE s (Event.workerDone resp)) (Event.clickGenerate true code)).running
           = true) := by
  cases hc : call_openai_api resp with
  | updateResult t =>
    refine ⟨Or.inl ⟨t, rfl⟩, by simp [stepE, h, hc], by simp [stepE, h, hc],
      by simp [stepE, h, hc], by simp [stepE, h, hc], ?_⟩
    intro code hcode
    simp [stepE, h, hc, hcode]
  | showError m =>
    refine ⟨Or.inr ⟨m, rfl⟩, by simp [stepE, h, hc], by simp [stepE, h, hc],
      by simp [stepE, h, hc], by simp [stepE, h, hc], ?_⟩
    intro code hcode
    simp [stepE, h, hc, hcode]

/-- Closed instance of `C3_dispatcher_returns_idle` on a concrete running state
and the well-formed 200 response. -/
theorem C3_witness :
    demoRunState.running = true
    ∧ (stepE demoRunState (Event.workerDone demoOkResp)).running = false
    ∧ (stepE demoRunState (Event.workerDone demoOkResp)).generateEnabled = true
    ∧ (stepE demoRunState (Event.workerDone demoOkResp)).delivered
        = demoRunState.delivered + 1 := by
  have h := C3_dispatcher_returns_idle demoRunState demoOkResp (by decide)
  exact ⟨by decide, h.2.1, h.2.2.1, h.2.2.2.1⟩

/-- Claim C4: a non-200 response is surfaced through the dedicated branch whose
message carries both the decimal status code and the raw body text; a transport
failure is surfaced through the generic exception branch; and the two message
shapes are distinct (an "API Error: " message is never equal to an "Error: "
message), so the two kinds are distinguishable. -/
theorem C4_error_mapping (r : HttpResponse) (e : List Char) :
    (r.status ≠ 200 →
       call_openai_api (Except.ok r) = UiAction.showError (apiErrorMessage r.status r.text)
       ∧ containsSub (natChars r.status) (apiErrorMessage r.status r.text) = true
       ∧ containsSub r.text (apiErrorMessage r.status r.text) = true)
    ∧ call_openai_api (Except.error e) = UiAction.showError (excMessage e)
    ∧ (∀ st b, apiErrorMessage st b ≠ excMessage e) := by
  refine ⟨?_, rfl, ?_⟩
  · intro hst
    refine ⟨by simp [call_openai_api, hst], ?_, ?_⟩
    · exact (containsSub_iff _ _).mpr ⟨("API Error: ").toList, ("\n").toList ++ r.text,
        by simp [apiErrorMessage, List.append_assoc]⟩
    · exact (containsSub_iff _ _).mpr ⟨("API Error: ").toList ++ natChars r.status
        ++ ("\n").toList, [], by simp [apiErrorMessage, List.append_assoc]⟩
  · intro st b hEq
    have h1 : (apiErrorMessage st b).head? = some 'A' := rfl
    rw [hEq, show (excMessage e).head? = some 'E' from rfl] at h1
    exact absurd h1 (by decide)

/-- Closed instance of `C4_error_mapping`: the 401 example of the spec and a
connection failure. -/
theorem C4_witness :
    call_openai_api (Except.ok c4Resp) = UiAction.showError (apiErrorMessage 401 c4Resp.text)
    ∧ containsSub (("401").toList) (apiErrorMessage 401 c4Resp.text) = true
    ∧ containsSub c4Resp.text (apiErrorMessage 401 c4Resp.text) = true
    ∧ call_openai_api demoNetResp
        = UiAction.showError (excMessage (("Connection refused").toList)) := by
  have h := C4_error_mapping c4Resp (("Connection refused").toList)
  have h1 := h.1 (by decide)
  refine ⟨h1.1, ?_, h1.2.2, h.2.1⟩
  have h401 := h1.2.1
  rw [show natChars c4Resp.status = ("401").toList from by decide] at h401
  exact h401

/-- Claim C5, as stated, is false: a 200 response with a malformed body, and a
200 response with zero choices, are not mapped to the ApiError shape (the
"API Error: status/body" message of the non-200 branch); they take the generic
exception branch, whose "Error: ..." message is the network-failure shape. -/
theorem C5_counterexample :
    call_openai_api (Except.ok demoMalformedResp)
      = UiAction.showError (("Error: Expecting value: line 1 column 1 (char 0)").toList)
    ∧ (("API Error: ").toList).isPrefixOf
        (("Error: Expecting value: line 1 column 1 (char 0)").toList) = false
    ∧ call_openai_api (Except.ok demoZeroChoicesResp)
      = UiAction.showError (("Error: list index out of range").toList)
    ∧ (("API Error: ").toList).isPrefixOf
        (("Error: list index out of range").toList) = false := by
  refine ⟨by decide, by decide, by decide, by decide⟩

/-- Claim C5 (amended): for every 200 response whose body fails to parse, has
zero choices, or lacks the expected field chain, the program does not crash and
does not substitute a default: it surfaces a Failure carrying the exception's
descriptive message - but through the generic exception branch ("Error: ..."),
the same shape as network failures, not the non-200 ApiError shape. -/
theorem C5_malformed_success (r : HttpResponse) (e : List Char)
    (h200 : r.status = 200)
    (hmal : r.jsonResult = Except.error e
       ∨ ∃ j, r.jsonResult = Except.ok j ∧ getContent j = Except.error e) :
    call_openai_api (Except.ok r) = UiAction.showError (excMessage e)
    ∧ ((("API Error: ").toList).isPrefixOf (excMessage e)) = false := by
  constructor
  · rcases hmal with hj | ⟨j, hj, hg⟩
    · simp [call_openai_api, h200, hj]
    · simp [call_openai_api, h200, hj, hg]
  · rfl

/-- Closed instance of `C5_malformed_success` on the zero-choices response. -/
theorem C5_witness :
    demoZeroChoicesResp.status = 200
    ∧ call_openai_api (Except.ok demoZeroChoicesResp)
        = UiAction.showError (excMessage (("list index out of range").toList)) := by
  refine ⟨rfl, ?_⟩
  exact (C5_malformed_success demoZeroChoicesResp (("list index out of range").toList) rfl
    (Or.inr ⟨_, rfl, rfl⟩)).1

/-- Claim C6: in every reachable running state the generate button is disabled,
so a click on it is a complete no-op: the state (including the spawn counter
and the in-flight request payload) is unchanged. -/
theorem C6_running_start_noop (s : AppState) (h : Reachable s) (hr : s.running = true) :
    ∀ fileOk code, stepE s (Event.clickGenerate fileOk code) = s := by
  intro fileOk code
  have hg : s.generateEnabled = false := by
    have hiff := reachable_running_iff s h
    rw [hr] at hiff
    cases hge : s.generateEnabled
    · rfl
    · rw [hge] at hiff
      simp at hiff
  simp [stepE, hg]

/-- Closed instance of `C6_running_start_noop` on a concrete reachable running
state. -/
theorem C6_witness :
    demoRunState.running = true
    ∧ stepE demoRunState (Event.clickGenerate true (("class Bar").toList)) = demoRunState := by
  refine ⟨by decide, ?_⟩
  exact C6_running_start_noop demoRunState
    (Reachable.step initState (Event.clickGenerate true (("class Foo").toList)) Reachable.init)
    (by decide) true (("class Bar").toList)

/-- Claim C7: the prompt builder is a pure total function; for every source
text (the empty string and fence-bearing strings included) the built prompt
contains the source verbatim and the fixed instructional template on both
sides of it, and two builds from the same source are identical. -/
theorem C7_prompt_builder (s : List Char) :
    containsSub s (create_prompt s) = true
    ∧ containsSub promptHead (create_prompt s) = true
    ∧ containsSub promptTail (create_prompt s) = true
    ∧ create_prompt s = create_prompt s := by
  refine ⟨?_, ?_, ?_, rfl⟩
  · exact (containsSub_iff _ _).mpr ⟨promptHead, promptTail,
      by simp [create_prompt, List.append_assoc]⟩
  · exact (containsSub_iff _ _).mpr ⟨[], s ++ promptTail,
      by simp [create_prompt, List.append_assoc]⟩
  · exact (containsSub_iff _ _).mpr ⟨promptHead ++ s, [],
      by simp [create_prompt, List.append_assoc]⟩

/-- Claim C8: the copy action is disabled initially, on every accepted start,
and after every failed delivery; it is enabled exactly by a successful delivery
(which also displays the delivered text); and clicking it passes the displayed
text unchanged to the clipboard while a disabled copy button does nothing. -/
theorem C8_copy_gating :
    initState.copyEnabled = false
    ∧ (∀ s fileOk code, s.generateEnabled = true → fileOk = true → code.isEmpty = false →
        (stepE s (Event.clickGenerate fileOk code)).copyEnabled = false)
    ∧ (∀ s resp m, s.running = true → call_openai_api resp = UiAction.showError m →
        (stepE s (Event.workerDone resp)).copyEnabled = false
        ∧ (stepE s (Event.workerDone resp)).outputText = m
        ∧ (stepE s (Event.workerDone resp)).generateEnabled = true)
    ∧ (∀ s resp t, s.running = true → call_openai_api resp = UiAction.updateResult t →
        (stepE s (Event.workerDone resp)).copyEnabled = true
        ∧ (stepE s (Event.workerDone resp)).outputText = t)
    ∧ (∀ s, s.copyEnabled = true →
        stepE s Event.clickCopy
          = { s with clipboard := some s.outputText
                   , statusText := ("Copied to clipboard!").toList })
    ∧ (∀ s, s.copyEnabled = false → stepE s Event.clickCopy = s) := by
  refine ⟨rfl, ?_, ?_, ?_, ?_, ?_⟩
  · intro s fileOk code hg hok hcode
    simp [stepE, hg, hok, hcode]
  · intro s resp m hr hc
    refine ⟨?_, ?_, ?_⟩ <;> simp [stepE, hr, hc]
  · intro s resp t hr hc
    refine ⟨?_, ?_⟩ <;> simp [stepE, hr, hc]
  · intro s hc
    simp [stepE, hc]
  · intro s hc
    simp [stepE, hc]

/-- Closed instances of `C8_copy_gating`. -/
theorem C8_witness :
    (stepE demoRunState (Event.workerDone demoErrResp)).copyEnabled = false
    ∧ (stepE demoRunState (Event.workerDone demoOkResp)).copyEnabled = true
    ∧ (stepE initState (Event.clickGenerate true (("class Foo").toList))).copyEnabled = false
    ∧ stepE initState Event.clickCopy = initState := by
  refine ⟨?_, ?_, ?_, ?_⟩
  · exact (C8_copy_gating.2.2.1 demoRunState demoErrResp
      (apiErrorMessage 500 (("server error").toList)) (by decide) (by decide)).1
  · exact (C8_copy_gating.2.2.2.1 demoRunState demoOkResp
      (("@Test void t()\x7b\x7d").toList) (by decide) (by decide)).1
  · exact C8_copy_gating.2.1 initState true (("class Foo").toList) rfl rfl rfl
  · exact C8_copy_gating.2.2.2.2.2 initState rfl

/-- Claim C9: an accepted start puts in flight exactly the payload built from
the file content, and that payload's model field is the constant "gpt-4o"
whatever the source text is. -/
theorem C9_model_fixed (s : AppState) (fileOk : Bool) (code : List Char)
    (hg : s.generateEnabled = true) (hok : fileOk = true) (hcode : code.isEmpty = false) :
    (stepE s (Event.clickGenerate fileOk code)).inFlightPayload = some (buildPayload code)
    ∧ (buildPayload code).model = (("gpt-4o").toList) := by
  constructor
  · simp [stepE, hg, hok, hcode]
  · rfl

/-- Closed instance of `C9_model_fixed`. -/
theorem C9_witness :
    (stepE initState (Event.clickGenerate true (("class Foo").toList))).inFlightPayload
      = some (buildPayload (("class Foo").toList))
    ∧ (buildPayload (("class Foo").toList)).model = (("gpt-4o").toList) :=
  C9_model_fixed initState true (("class Foo").toList) rfl rfl rfl

/-- Claim C10: every accepted start clears the output widget and disables the
copy action in the same handler that dispatches the worker, so the previous
generation is gone at once; and if the new generation then fails, the output
holds only the error message with copy still disabled - the old text cannot be
recovered or copied. -/
theorem C10_start_discards_output (s : AppState) (fileOk : Bool) (code : List Char)
    (hg : s.generateEnabled = true) (hok : fileOk = true) (hcode : code.isEmpty = false) :
    (stepE s (Event.clickGenerate fileOk code)).outputText = []
    ∧ (stepE s (Event.clickGenerate fileOk code)).copyEnabled = false
    ∧ (stepE s (Event.clickGenerate fileOk code)).running = true
    ∧ (stepE s (Event.clickGenerate fileOk code)).spawnCount = s.spawnCount + 1
    ∧ (∀ resp m, call_openai_api resp = UiAction.showError m →
        (stepE (stepE s (Event.clickGenerate fileOk code)) (Event.workerDone resp)).outputText
          = m
        ∧ (stepE (stepE s (Event.clickGenerate fileOk code))
            (Event.workerDone resp)).copyEnabled = false) := by
  refine ⟨by simp [stepE, hg, hok, hcode], by simp [stepE, hg, hok, hcode],
    by simp [stepE, hg, hok, hcode], by simp [stepE, hg, hok, hcode], ?_⟩
  intro resp m hc
  constructor <;> simp [stepE, hg, hok, hcode, hc]

/-- Closed instance of `C10_start_discards_output`. -/
theorem C10_witness :
    (stepE initState (Event.clickGenerate true (("class Foo").toList))).outputText = []
    ∧ (stepE (stepE initState (Event.clickGenerate true (("class Foo").toList)))
        (Event.workerDone demoErrResp)).copyEnabled = false := by
  have h := C10_start_discards_output initState true (("class Foo").toList) rfl rfl rfl
  exact ⟨h.1, (h.2.2.2.2 demoErrResp (apiErrorMessage 500 (("server error").toList))
    (by decide)).2⟩
